import Mathlib

/-
Verification of the role-assignment ledger and authentication lifecycle of
the lll_backend repository (Django app "accounts").

The embedding is shallow: Django model rows become Lean structures, the
UserRole table becomes a list of rows together with an auto-increment
counter, and each ORM operation (get_or_create, filter().update(),
filter().exists(), save()) is translated into an explicit pure function on
that state.  Python exceptions become error values: an operation that
raises returns the unchanged state paired with an Except.error, mirroring
the fact that raising before any ORM write leaves the database untouched.
Timestamps (timezone.now()) are passed in explicitly as natural numbers.
-/

namespace Accounts

/-- A saved or unsaved Role row (accounts/models.py, class Role).
`pk` is `none` for an unsaved instance.  Only the fields the role
assignment logic reads are modelled. -/
structure Role where
  pk : Option Nat
  name : String
  slug : String
  is_active : Bool
deriving DecidableEq

/-- A UserRole row (accounts/models.py, class UserRole): the through table
mapping user to role with assignment metadata.  `id` is the row primary
key, `user_id` and `role_id` the foreign keys. -/
structure UserRole where
  id : Nat
  user_id : Nat
  role_id : Nat
  is_active : Bool
  assigned_at : Nat
  revoked_at : Option Nat
  assigned_by : Option Nat
  note : Option String
deriving DecidableEq

/-- The ledger state: the Role table, the UserRole table and the
auto-increment counter for UserRole primary keys. -/
structure DB where
  roles : List Role
  userroles : List UserRole
  nextRowId : Nat
deriving DecidableEq

/-- Python truthiness of `role.pk` as used by `if not role.pk`: falsy when
the role is unsaved (None) or the pk is 0. -/
def pkFalsy : Option Nat → Bool
  | none => true
  | some n => n == 0

/-- Python truthiness of the `note` argument as used by `if note:`: truthy
only for a present, non-empty string.  Emptiness is read off the character
list of the string. -/
def noteTruthy : Option String → Bool
  | none => false
  | some s => !s.data.isEmpty

/-- The ORM row filter `user=u, role=rid` on the UserRole table. -/
def pairMatch (u rid : Nat) (r : UserRole) : Bool :=
  r.user_id == u && r.role_id == rid

/-- All UserRole rows for the pair (u, rid). -/
def rowsFor (db : DB) (u rid : Nat) : List UserRole :=
  db.userroles.filter (pairMatch u rid)

/-- The lookup half of `UserRole.objects.get_or_create(user=.., role=..)`. -/
def findPair (db : DB) (u rid : Nat) : Option UserRole :=
  db.userroles.find? (pairMatch u rid)

/-- `ur.save()` on an existing row: the UPDATE writes back over the row
with the same primary key. -/
def saveRow (rows : List UserRole) (ur : UserRole) : List UserRole :=
  rows.map (fun r => if r.id == ur.id then ur else r)

/-- The metadata refresh performed by Profile.add_role on an existing
mapping (models.py lines 97-104): re-activate, keep the old assigner when
the argument is None (`assigned_by or ur.assigned_by`), overwrite the note
only when truthy (`if note:`), stamp `assigned_at`.  `revoked_at` is not
touched by this code path. -/
def reactivate (ur : UserRole) (assigned_by : Option Nat)
    (note : Option String) (now : Nat) : UserRole :=
  { ur with
    is_active := true
    assigned_by := match assigned_by with
      | some a => some a
      | none => ur.assigned_by
    note := if noteTruthy note then note else ur.note
    assigned_at := now }

/-- Profile.add_role (models.py lines 79-105).  Raising is modelled as
returning the unchanged state with an error value. -/
def add_role (db : DB) (u : Nat) (role : Role) (assigned_by : Option Nat)
    (note : Option String) (now : Nat) : DB × Except String UserRole :=
  if pkFalsy role.pk then
    (db, Except.error "role must be saved (have a primary key) before assigning")
  else if !role.is_active then
    (db, Except.error "cannot assign an inactive Role")
  else
    let rid := role.pk.getD 0
    match findPair db u rid with
    | some ur =>
      let ur2 := reactivate ur assigned_by note now
      ({ db with userroles := saveRow db.userroles ur2 }, Except.ok ur2)
    | none =>
      let ur : UserRole :=
        { id := db.nextRowId, user_id := u, role_id := rid, is_active := true,
          assigned_at := now, revoked_at := none, assigned_by := assigned_by,
          note := note }
      ({ db with userroles := db.userroles ++ [ur],
                 nextRowId := db.nextRowId + 1 }, Except.ok ur)

/-- Profile.remove_role (models.py lines 107-111):
`filter(user, role, is_active=True).update(is_active=False, revoked_at=now)`. -/
def remove_role (db : DB) (u rid now : Nat) : DB :=
  { db with userroles := db.userroles.map (fun r =>
      if pairMatch u rid r && r.is_active then
        { r with is_active := false, revoked_at := some now }
      else r) }

/-- Profile.has_role (models.py lines 66-73): an EXISTS over the join of
UserRole and Role filtered on user, role slug and both active flags. -/
def has_role (db : DB) (u : Nat) (slug : String) : Bool :=
  db.userroles.any (fun r =>
    r.user_id == u && r.is_active &&
      db.roles.any (fun role =>
        role.pk == some r.role_id && role.slug == slug && role.is_active))

/-- Profile.get_active_roles (models.py lines 75-77): active Role rows
joined through active UserRole rows of this user. -/
def get_active_roles (db : DB) (u : Nat) : List Role :=
  db.roles.filter (fun role =>
    role.is_active && db.userroles.any (fun r =>
      role.pk == some r.role_id && r.user_id == u && r.is_active))

/-- The row built by the defaults of get_or_create when no (user, role)
row exists yet: active, stamped now, revoked_at empty. -/
def freshRow (i u rid : Nat) (ab : Option Nat) (m : Option String)
    (t : Nat) : UserRole :=
  { id := i, user_id := u, role_id := rid, is_active := true,
    assigned_at := t, revoked_at := none, assigned_by := ab, note := m }

/-- A Django auth User row: only the fields the registration and login
flows read.  The stored password is the hash of the submitted one. -/
structure AppUser where
  id : Nat
  username : String
  email : String
  password : String
deriving DecidableEq

/-- Password hashing is framework-internal and out of the modelled scope
(set_password / check_password only ever compare the hash of a candidate
with the stored hash), so an arbitrary injective encoding suffices; the
identity encoding is used. -/
def hashPassword (p : String) : String := p

/-- Application state seen by the account views: the auth user table, the
set of user ids owning a Profile (created by the post_save signal), the
role ledger and the user auto-increment counter. -/
structure Sys where
  users : List AppUser
  profiles : List Nat
  db : DB
  nextUserId : Nat
deriving DecidableEq

/-- A registration request body (accounts/serializers.py,
RegisterSerializer fields). -/
structure RegInput where
  username : String
  email : String
  password : String
  password2 : String
deriving DecidableEq

/-- Serializer validation for registration: the unique-username field
validator the model serializer derives from the User model, then the
object-level validate of RegisterSerializer (serializers.py lines 19-24):
password equality, then email uniqueness.  Returns the field of the first
failing check. -/
def registerValidate (sys : Sys) (inp : RegInput) : Option String :=
  if sys.users.any (fun us => us.username == inp.username) then some "username"
  else if inp.password ≠ inp.password2 then some "password"
  else if sys.users.any (fun us => us.email == inp.email) then some "email"
  else none

/-- Outcome of a registration request: a field-scoped validation error
(HTTP 400), a created response carrying the user info snapshot (HTTP 201;
the issued token pair is opaque and omitted), or an exception that
escapes the view (HTTP 500). -/
inductive RegOutcome where
  | validationError (field : String)
  | success (username email : String) (roles : List String)
  | uncaughtError (msg : String)
deriving DecidableEq

/-- RegisterView.create (accounts/views.py lines 30-51): validate, save
the user (the post_save signal creates the Profile), look up the default
role id=2 and assign it, swallowing only Role.DoesNotExist; then answer
201 with username, email and the active role slugs.  A ValueError raised
by add_role is not caught and escapes. -/
def registerView (sys : Sys) (inp : RegInput) (now : Nat) : Sys × RegOutcome :=
  match registerValidate sys inp with
  | some f => (sys, RegOutcome.validationError f)
  | none =>
    let uid := sys.nextUserId
    let user : AppUser :=
      ⟨uid, inp.username, inp.email, hashPassword inp.password⟩
    let sys1 : Sys :=
      { sys with users := sys.users ++ [user],
                 profiles := sys.profiles ++ [uid],
                 nextUserId := uid + 1 }
    match sys1.db.roles.find? (fun r => r.pk == some 2) with
    | none =>
      (sys1, RegOutcome.success user.username user.email
        ((get_active_roles sys1.db uid).map (fun r => r.slug)))
    | some role =>
      match add_role sys1.db uid role none none now with
      | (db2, Except.ok _) =>
        ({ sys1 with db := db2 },
          RegOutcome.success user.username user.email
            ((get_active_roles db2 uid).map (fun r => r.slug)))
      | (db2, Except.error msg) =>
        ({ sys1 with db := db2 }, RegOutcome.uncaughtError msg)

/-- Python `"@" in s`, read off the character list of the string. -/
def hasAtSign (s : String) : Bool := s.data.contains '@'

/-- The email-to-username resolution of CustomTokenObtainPairSerializer
(accounts/views.py lines 67-79): when the identifier contains an at sign,
`User.objects.get(email=identifier)` is attempted; DoesNotExist is caught
and leaves the identifier as given, while MultipleObjectsReturned (two
users sharing the email; the User email column is not unique) escapes. -/
def resolveUsername (users : List AppUser) (ident : String) :
    Except Unit String :=
  if hasAtSign ident then
    match users.filter (fun us => us.email == ident) with
    | [] => Except.ok ident
    | [us] => Except.ok us.username
    | _ => Except.error ()
  else Except.ok ident

/-- Outcome of a login request: a 200 with the token payload snapshot
(username, email and active role slugs baked into the token by
get_token), a generic authentication failure, or an exception escaping
the view. -/
inductive LoginResult where
  | success (username email : String) (roles : List String)
  | authFailed
  | serverError
deriving DecidableEq

/-- The login flow: resolve the identifier, then authenticate by exact
username plus password-hash comparison, then issue a token whose payload
snapshots username, email and active role slugs (views.py get_token). -/
def tokenObtain (sys : Sys) (ident password : String) : LoginResult :=
  match resolveUsername sys.users ident with
  | Except.error _ => LoginResult.serverError
  | Except.ok uname =>
    match sys.users.find? (fun us => us.username == uname) with
    | none => LoginResult.authFailed
    | some us =>
      if us.password == hashPassword password then
        LoginResult.success us.username us.email
          ((get_active_roles sys.db us.id).map (fun r => r.slug))
      else LoginResult.authFailed

/-- The SimpleJWT rotation switch set in lll_backend/settings.py. -/
def ROTATE_REFRESH_TOKENS : Bool := true

/-- The SimpleJWT blacklist-after-rotation switch set in settings.py. -/
def BLACKLIST_AFTER_ROTATION : Bool := true

/-- State of the token store: jtis of signed refresh tokens, jtis in the
blacklist table, and the next fresh jti. -/
structure JwtState where
  outstanding : List Nat
  blacklist : List Nat
  nextJti : Nat
deriving DecidableEq

/-- Modelled from the spec: the refresh endpoint is TokenRefreshView of
the third-party SimpleJWT library (subclassed unchanged as
RefreshTokenView in accounts/views.py); its code is not part of this
repository, which only sets ROTATE_REFRESH_TOKENS and
BLACKLIST_AFTER_ROTATION.  Per the spec, a refresh exchanges a valid,
non-blacklisted refresh token for a new access token; with rotation on, a
new refresh token is issued and, with blacklist-after-rotation on, the
old refresh token is blacklisted.  The result carries the new state and
the jti of the newly issued refresh token. -/
def refreshEndpoint (st : JwtState) (jti : Nat) :
    Except String (JwtState × Nat) :=
  if !(st.outstanding.any (fun t => t == jti)) then
    Except.error "Token is invalid or expired"
  else if st.blacklist.any (fun t => t == jti) then
    Except.error "Token is blacklisted"
  else if ROTATE_REFRESH_TOKENS then
    Except.ok
      ({ outstanding := st.outstanding ++ [st.nextJti],
         blacklist :=
           if BLACKLIST_AFTER_ROTATION then st.blacklist ++ [jti]
           else st.blacklist,
         nextJti := st.nextJti + 1 }, st.nextJti)
  else Except.ok (st, jti)

/-- The role, inactive ledger row and ledger used to refute the
revoked_at clause of the reactivation claim. -/
def exRole1 : Role := ⟨some 1, "Member", "member", true⟩

/-- An inactive ledger row for user 7 and role 1, revoked at time 5. -/
def exRow1 : UserRole := ⟨0, 7, 1, false, 1, some 5, some 9, some "old"⟩

/-- A ledger holding only the inactive row exRow1. -/
def exDB1 : DB := ⟨[exRole1], [exRow1], 1⟩

/-- The row exRow1 after reactivation at time 10: still revoked at 5. -/
def exRow1r : UserRole := ⟨0, 7, 1, true, 10, some 5, some 9, some "old"⟩

/-- A small ledger with one active role and no rows, used to instantiate
the uniqueness theorem. -/
def exDB2 : DB := ⟨[exRole1], [], 0⟩

/-- A ledger pairing an inactive role "member" with an active ledger row
of user 7, to instantiate the has_role theorem. -/
def exDB3 : DB :=
  ⟨[⟨some 1, "Member", "member", false⟩], [⟨0, 7, 1, true, 1, none, none, none⟩], 1⟩

/-- A ledger whose only row for (7, 1) is inactive. -/
def exDB8 : DB := ⟨[exRole1], [⟨0, 7, 1, false, 1, some 5, none, none⟩], 1⟩

/-- A user whose stored email carries no at sign, as the admin and
createsuperuser paths permit. -/
def exUserA : AppUser := ⟨1, "bob", "bobmail", hashPassword "pw"⟩

/-- A system holding only exUserA. -/
def exSysA : Sys := ⟨[exUserA], [1], ⟨[], [], 0⟩, 2⟩

/-- A user whose stored email is a regular address. -/
def exUserB : AppUser := ⟨1, "bob", "bob@x.com", hashPassword "pw"⟩

/-- A system holding only exUserB. -/
def exSysB : Sys := ⟨[exUserB], [1], ⟨[], [], 0⟩, 2⟩

/-- An empty system whose role table holds the default role id=2,
active. -/
def exSysReg : Sys := ⟨[], [], ⟨[⟨some 2, "User", "user", true⟩], [], 0⟩, 1⟩

/-- An empty system whose role table lacks the default role id=2. -/
def exSysRegNoRole : Sys := ⟨[], [], ⟨[], [], 0⟩, 1⟩

/-- An empty system whose role table holds the default role id=2,
inactive. -/
def exSysRegInactive : Sys := ⟨[], [], ⟨[⟨some 2, "User", "user", false⟩], [], 0⟩, 1⟩

/-- A registration input used by the witnesses. -/
def exReg : RegInput := ⟨"alice", "alice@x.com", "s3cret", "s3cret"⟩

/-- A token store with one outstanding refresh token, jti 5. -/
def exJwt : JwtState := ⟨[5], [], 6⟩

end Accounts

namespace Accounts

/-- Unfolding of saveRow on a cons cell. -/
theorem saveRow_cons (x : UserRole) (xs : List UserRole) (b : UserRole) :
    saveRow (x :: xs) b = (if x.id == b.id then b else x) :: saveRow xs b := rfl

/-- find? is the head of filter. -/
theorem find?_eq_head_filter {α : Type} (p : α → Bool) (l : List α) :
    l.find? p = (l.filter p).head? := by
  induction l with
  | nil => rfl
  | cons x xs ih =>
    by_cases h : p x = true
    · rw [List.find?_cons_of_pos _ h, List.filter_cons_of_pos h]
      rfl
    · rw [List.find?_cons_of_neg _ h, List.filter_cons_of_neg h, ih]

/-- Writing back a row with the primary key of the row found by a pair
filter makes the written row the one the filter now finds, provided the
written row still satisfies the filter. -/
theorem find?_saveRow (p : UserRole → Bool) (b : UserRole) :
    ∀ (l : List UserRole) (a : UserRole), l.find? p = some a → p b = true →
      b.id = a.id → (saveRow l b).find? p = some b := by
  intro l
  induction l with
  | nil => intro a h _ _; simp at h
  | cons x xs ih =>
    intro a h hb hid
    by_cases hx : p x = true
    · rw [List.find?_cons_of_pos _ hx] at h
      injection h with h
      subst h
      have hbid : (x.id == b.id) = true := by simp [hid]
      rw [saveRow_cons, if_pos hbid, List.find?_cons_of_pos _ hb]
    · rw [List.find?_cons_of_neg _ (by simp [hx])] at h
      rw [saveRow_cons]
      by_cases hxb : (x.id == b.id) = true
      · rw [if_pos hxb, List.find?_cons_of_pos _ hb]
      · rw [if_neg hxb, List.find?_cons_of_neg _ (by simp [hx]),
          ih a h hb hid]

/-- Mapping a function that does not change whether the filter holds
commutes with filtering. -/
theorem filter_map_comm {α : Type} (g : α → α) (p : α → Bool) (l : List α)
    (h : ∀ r, p (g r) = p r) : (l.map g).filter p = (l.filter p).map g := by
  induction l with
  | nil => rfl
  | cons x xs ih =>
    by_cases hx : p x = true
    · simp [List.filter_cons, h, hx, ih]
    · simp [List.filter_cons, h, hx, ih]

/-- findPair is the head of rowsFor. -/
theorem findPair_eq_head (db : DB) (u rid : Nat) :
    findPair db u rid = (rowsFor db u rid).head? :=
  find?_eq_head_filter _ _

/-- reactivate never changes the pair a row belongs to. -/
theorem pairMatch_reactivate (u rid : Nat) (x : UserRole) (ab : Option Nat)
    (note : Option String) (t : Nat) :
    pairMatch u rid (reactivate x ab note t) = pairMatch u rid x := rfl

/-- Writing back a row whose primary key occurs nowhere in the table
changes nothing. -/
theorem saveRow_of_not_mem (b : UserRole) (l : List UserRole)
    (h : ∀ r ∈ l, (r.id == b.id) = false) : saveRow l b = l := by
  rw [saveRow]
  conv_rhs => rw [← List.map_id l]
  refine List.map_congr_left ?_
  intro r hr
  simp [h r hr]

/-- Writing back, over a table with distinct primary keys, a row carrying
the key of the unique row a filter selects leaves the written row as the
unique selected row. -/
theorem filter_saveRow_singleton (p : UserRole → Bool) (b : UserRole) :
    ∀ (l : List UserRole) (a : UserRole), l.filter p = [a] →
      (l.map (fun r => r.id)).Nodup → p b = true → b.id = a.id →
      (saveRow l b).filter p = [b] := by
  intro l
  induction l with
  | nil => intro a h _ _ _; simp at h
  | cons x xs ih =>
    intro a h hnd hb hid
    rw [List.map_cons, List.nodup_cons] at hnd
    obtain ⟨hxnotin, hndxs⟩ := hnd
    by_cases hx : p x = true
    · rw [List.filter_cons_of_pos hx] at h
      injection h with hxa htl
      subst hxa
      have hxb : (x.id == b.id) = true := by simp [hid]
      rw [saveRow_cons, if_pos hxb, List.filter_cons_of_pos hb]
      have hnone : ∀ r ∈ xs, (r.id == b.id) = false := by
        intro r hr
        have hrx : r.id ≠ x.id :=
          fun he => hxnotin (he ▸ List.mem_map_of_mem _ hr)
        simpa [hid] using hrx
      rw [saveRow_of_not_mem b xs hnone, htl]
    · rw [List.filter_cons_of_neg hx] at h
      have hain : a ∈ xs :=
        List.mem_of_mem_filter (h ▸ List.mem_singleton_self a)
      have hxna : x.id ≠ a.id :=
        fun he => hxnotin (he ▸ List.mem_map_of_mem _ hain)
      have hxb : (x.id == b.id) = false := by simpa [hid] using hxna
      rw [saveRow_cons, if_neg (by simp [hxb]), List.filter_cons_of_neg hx]
      exact ih a h hndxs hb hid

/-- With a saved active role and an existing (user, role) row, add_role
takes the reactivation path. -/
theorem add_role_found (db : DB) (u rid : Nat) (role : Role)
    (ab : Option Nat) (note : Option String) (now : Nat) (ur : UserRole)
    (hpk : role.pk = some rid) (h0 : rid ≠ 0) (hact : role.is_active = true)
    (hfind : findPair db u rid = some ur) :
    add_role db u role ab note now =
      ({ db with userroles := saveRow db.userroles (reactivate ur ab note now) },
        Except.ok (reactivate ur ab note now)) := by
  have hpkf : pkFalsy role.pk = false := by
    rw [hpk]
    show (rid == 0) = false
    simpa using h0
  rw [add_role, hpkf]
  simp only [Bool.false_eq_true, if_false, hact, Bool.not_true, hpk,
    Option.getD_some, hfind]

/-- With a saved active role and no existing (user, role) row, add_role
takes the creation path of get_or_create. -/
theorem add_role_fresh (db : DB) (u rid : Nat) (role : Role)
    (ab : Option Nat) (note : Option String) (now : Nat)
    (hpk : role.pk = some rid) (h0 : rid ≠ 0) (hact : role.is_active = true)
    (hfind : findPair db u rid = none) :
    add_role db u role ab note now =
      ({ db with
          userroles := db.userroles ++ [freshRow db.nextRowId u rid ab note now],
          nextRowId := db.nextRowId + 1 },
        Except.ok (freshRow db.nextRowId u rid ab note now)) := by
  have hpkf : pkFalsy role.pk = false := by
    rw [hpk]
    show (rid == 0) = false
    simpa using h0
  rw [add_role, hpkf]
  simp only [Bool.false_eq_true, if_false, hact, Bool.not_true, hpk,
    Option.getD_some, hfind]
  rfl

/-- C1 (amended): reactivating an existing inactive mapping through
Profile.add_role re-activates the row in place, stamps assigned_at,
updates assigned_by only when a non-null argument is given, updates note
only when a truthy note is given, and PRESERVES revoked_at (the code path
for an existing row never writes revoked_at). -/
theorem add_role_reactivates_row (db : DB) (u rid : Nat) (role : Role)
    (ab : Option Nat) (note : Option String) (now : Nat) (ur : UserRole)
    (hpk : role.pk = some rid) (h0 : rid ≠ 0) (hact : role.is_active = true)
    (hfind : findPair db u rid = some ur) (_hin : ur.is_active = false) :
    ∃ ur2,
      (add_role db u role ab note now).2 = Except.ok ur2 ∧
      findPair (add_role db u role ab note now).1 u rid = some ur2 ∧
      ur2.is_active = true ∧
      ur2.assigned_at = now ∧
      ur2.revoked_at = ur.revoked_at ∧
      ur2.id = ur.id ∧
      (ab = none → ur2.assigned_by = ur.assigned_by) ∧
      (ab ≠ none → ur2.assigned_by = ab) ∧
      (noteTruthy note = false → ur2.note = ur.note) ∧
      (noteTruthy note = true → ur2.note = note) := by
  refine ⟨reactivate ur ab note now, ?_, ?_, rfl, rfl, rfl, rfl, ?_, ?_, ?_, ?_⟩
  · rw [add_role_found db u rid role ab note now ur hpk h0 hact hfind]
  · rw [add_role_found db u rid role ab note now ur hpk h0 hact hfind]
    have hmatch : pairMatch u rid ur = true := List.find?_some hfind
    have hmatch2 : pairMatch u rid (reactivate ur ab note now) = true := hmatch
    exact find?_saveRow (pairMatch u rid) (reactivate ur ab note now)
      db.userroles ur hfind hmatch2 rfl
  · intro h; subst h; rfl
  · intro h
    cases hab : ab with
    | none => exact absurd hab h
    | some a => simp [reactivate, hab]
  · intro h; simp [reactivate, h]
  · intro h; simp [reactivate, h]

/-- C1 counterexample: for user 7 and active role 1, the ledger row exists
and is inactive with revoked_at = 5; Profile.add_role reactivates it but
the resulting row still has revoked_at = 5, not null, contradicting the
claim that assign sets revoked_at to null on reactivation. -/
theorem add_role_keeps_revoked_at_counterexample :
    findPair exDB1 7 1 = some exRow1 ∧
    exRow1.is_active = false ∧
    exRole1.is_active = true ∧
    add_role exDB1 7 exRole1 none none 10
      = ({ exDB1 with userroles := [exRow1r] }, Except.ok exRow1r) ∧
    exRow1r.revoked_at ≠ none :=
  ⟨by decide, by decide, by decide, by rfl, by decide⟩

/-- Concrete instantiation of the amended C1 theorem on exDB1. -/
theorem add_role_reactivates_row_witness :
    ∃ ur2,
      (add_role exDB1 7 exRole1 none none 10).2 = Except.ok ur2 ∧
      findPair (add_role exDB1 7 exRole1 none none 10).1 7 1 = some ur2 ∧
      ur2.is_active = true ∧
      ur2.assigned_at = 10 ∧
      ur2.revoked_at = exRow1.revoked_at ∧
      ur2.id = exRow1.id ∧
      ((none : Option Nat) = none → ur2.assigned_by = exRow1.assigned_by) ∧
      ((none : Option Nat) ≠ none → ur2.assigned_by = none) ∧
      (noteTruthy none = false → ur2.note = exRow1.note) ∧
      (noteTruthy none = true → ur2.note = none) :=
  add_role_reactivates_row exDB1 7 1 exRole1 none none 10 exRow1
    (by decide) (by decide) (by decide) (by decide) (by decide)

/-- Effect of remove_role on the rows of the very pair it targets. -/
theorem rowsFor_remove_role (db : DB) (u rid t : Nat) :
    rowsFor (remove_role db u rid t) u rid
      = (rowsFor db u rid).map (fun r =>
          if r.is_active then
            { r with is_active := false, revoked_at := some t }
          else r) := by
  rw [rowsFor, remove_role]
  rw [filter_map_comm _ (pairMatch u rid) db.userroles ?_]
  · rw [← rowsFor]
    refine List.map_congr_left ?_
    intro r hr
    have hm : pairMatch u rid r = true := List.of_mem_filter hr
    simp [hm]
  · intro r
    by_cases hc : (pairMatch u rid r && r.is_active) = true
    · rw [if_pos hc]
      rfl
    · rw [if_neg hc]

/-- remove_role is the identity when the pair has no active row. -/
theorem remove_role_noop (db : DB) (u rid t : Nat)
    (h : ∀ r ∈ rowsFor db u rid, r.is_active = false) :
    remove_role db u rid t = db := by
  have hmap : db.userroles.map (fun r =>
      if pairMatch u rid r && r.is_active then
        { r with is_active := false, revoked_at := some t }
      else r) = db.userroles := by
    conv_rhs => rw [← List.map_id db.userroles]
    refine List.map_congr_left ?_
    intro r hr
    by_cases hm : pairMatch u rid r = true
    · have hrin : r ∈ rowsFor db u rid := List.mem_filter.mpr ⟨hr, hm⟩
      simp [hm, h r hrin]
    · simp [hm]
  rw [remove_role, hmap]

/-- remove_role leaves every row primary key in place. -/
theorem ids_remove_role (db : DB) (u rid t : Nat) :
    (remove_role db u rid t).userroles.map (fun r => r.id)
      = db.userroles.map (fun r => r.id) := by
  rw [remove_role, List.map_map]
  refine List.map_congr_left ?_
  intro r _
  by_cases hc : (pairMatch u rid r && r.is_active) = true
  · simp [Function.comp, hc]
  · simp [Function.comp, hc]

/-- C8: Profile.remove_role deactivates exactly the matching active rows,
stamping revoked_at with the current time, and is a no-op on the whole
state when no active row for the pair exists. -/
theorem remove_role_spec (db : DB) (u rid t : Nat) :
    rowsFor (remove_role db u rid t) u rid
        = (rowsFor db u rid).map (fun r =>
            if r.is_active then
              { r with is_active := false, revoked_at := some t }
            else r)
    ∧ ((∀ r ∈ rowsFor db u rid, r.is_active = false) →
        remove_role db u rid t = db) :=
  ⟨rowsFor_remove_role db u rid t, remove_role_noop db u rid t⟩

/-- C2: starting from a ledger holding no row for the pair, with distinct
row keys all below the auto-increment counter, assigning creates exactly
one row; assigning again yields exactly one row for the pair, active,
with the same primary key; and assign, revoke, assign again yields
exactly one row for the pair, active, still with the primary key of the
row the first assign created — never a second row. -/
theorem assign_pair_uniqueness (db : DB) (u rid : Nat) (role : Role)
    (ab1 ab2 ab3 : Option Nat) (m1 m2 m3 : Option String) (t1 t2 t3 : Nat)
    (hpk : role.pk = some rid) (h0 : rid ≠ 0) (hact : role.is_active = true)
    (hnd : (db.userroles.map (fun r => r.id)).Nodup)
    (hbound : ∀ r ∈ db.userroles, r.id < db.nextRowId)
    (hempty : rowsFor db u rid = []) :
    ∃ ur1 ur2 ur3,
      (add_role db u role ab1 m1 t1).2 = Except.ok ur1 ∧
      rowsFor (add_role db u role ab1 m1 t1).1 u rid = [ur1] ∧
      ur1.is_active = true ∧
      (add_role (add_role db u role ab1 m1 t1).1 u role ab2 m2 t2).2
          = Except.ok ur2 ∧
      rowsFor (add_role (add_role db u role ab1 m1 t1).1 u role ab2 m2 t2).1
          u rid = [ur2] ∧
      ur2.is_active = true ∧ ur2.id = ur1.id ∧
      (add_role (remove_role (add_role db u role ab1 m1 t1).1 u rid t2)
          u role ab3 m3 t3).2 = Except.ok ur3 ∧
      rowsFor (add_role (remove_role (add_role db u role ab1 m1 t1).1 u rid t2)
          u role ab3 m3 t3).1 u rid = [ur3] ∧
      ur3.is_active = true ∧ ur3.id = ur1.id := by
  have hfind0 : findPair db u rid = none := by
    rw [findPair_eq_head, hempty]
    rfl
  have h1 := add_role_fresh db u rid role ab1 m1 t1 hpk h0 hact hfind0
  have hp1 : pairMatch u rid (freshRow db.nextRowId u rid ab1 m1 t1) = true := by
    simp [pairMatch, freshRow]
  have hempty2 : db.userroles.filter (pairMatch u rid) = [] := hempty
  have hrows1 : rowsFor (add_role db u role ab1 m1 t1).1 u rid
      = [freshRow db.nextRowId u rid ab1 m1 t1] := by
    rw [h1]
    show (db.userroles ++ [freshRow db.nextRowId u rid ab1 m1 t1]).filter
        (pairMatch u rid) = _
    rw [List.filter_append, hempty2, List.filter_cons_of_pos hp1]
    rfl
  have hfind1 : findPair (add_role db u role ab1 m1 t1).1 u rid
      = some (freshRow db.nextRowId u rid ab1 m1 t1) := by
    rw [findPair_eq_head, hrows1]
    rfl
  have hfreshid : db.nextRowId ∉ db.userroles.map (fun r => r.id) := by
    intro hmem
    rcases List.mem_map.mp hmem with ⟨r, hr, hidr⟩
    exact absurd (hidr ▸ hbound r hr) (lt_irrefl _)
  have hnd1 : ((add_role db u role ab1 m1 t1).1.userroles.map
      (fun r => r.id)).Nodup := by
    rw [h1]
    show ((db.userroles ++ [freshRow db.nextRowId u rid ab1 m1 t1]).map
        (fun r => r.id)).Nodup
    rw [List.map_append]
    refine List.Nodup.append hnd (List.nodup_singleton _) ?_
    intro x hx hx'
    simp only [List.map_cons, List.map_nil, List.mem_singleton] at hx'
    subst hx'
    exact hfreshid hx
  have h2 := add_role_found (add_role db u role ab1 m1 t1).1 u rid role
    ab2 m2 t2 (freshRow db.nextRowId u rid ab1 m1 t1) hpk h0 hact hfind1
  have hp2 : pairMatch u rid
      (reactivate (freshRow db.nextRowId u rid ab1 m1 t1) ab2 m2 t2) = true := by
    rw [pairMatch_reactivate]
    exact hp1
  have hrows2 : rowsFor
      (add_role (add_role db u role ab1 m1 t1).1 u role ab2 m2 t2).1 u rid
      = [reactivate (freshRow db.nextRowId u rid ab1 m1 t1) ab2 m2 t2] := by
    rw [h2]
    show (saveRow (add_role db u role ab1 m1 t1).1.userroles
        (reactivate (freshRow db.nextRowId u rid ab1 m1 t1) ab2 m2 t2)).filter
        (pairMatch u rid) = _
    exact filter_saveRow_singleton _ _ _ _ hrows1 hnd1 hp2 rfl
  have hrows2d : rowsFor (remove_role (add_role db u role ab1 m1 t1).1 u rid t2)
      u rid
      = [{ freshRow db.nextRowId u rid ab1 m1 t1 with
            is_active := false, revoked_at := some t2 }] := by
    rw [rowsFor_remove_role, hrows1]
    rfl
  have hnd2 : ((remove_role (add_role db u role ab1 m1 t1).1 u rid t2).userroles.map
      (fun r => r.id)).Nodup := by
    rw [ids_remove_role]
    exact hnd1
  have hfind2 : findPair (remove_role (add_role db u role ab1 m1 t1).1 u rid t2)
      u rid
      = some { freshRow db.nextRowId u rid ab1 m1 t1 with
                is_active := false, revoked_at := some t2 } := by
    rw [findPair_eq_head, hrows2d]
    rfl
  have h3 := add_role_found (remove_role (add_role db u role ab1 m1 t1).1 u rid t2)
    u rid role ab3 m3 t3
    { freshRow db.nextRowId u rid ab1 m1 t1 with
        is_active := false, revoked_at := some t2 } hpk h0 hact hfind2
  have hp3 : pairMatch u rid
      (reactivate { freshRow db.nextRowId u rid ab1 m1 t1 with
          is_active := false, revoked_at := some t2 } ab3 m3 t3) = true := by
    rw [pairMatch_reactivate]
    exact hp1
  have hrows3 : rowsFor
      (add_role (remove_role (add_role db u role ab1 m1 t1).1 u rid t2)
        u role ab3 m3 t3).1 u rid
      = [reactivate { freshRow db.nextRowId u rid ab1 m1 t1 with
            is_active := false, revoked_at := some t2 } ab3 m3 t3] := by
    rw [h3]
    show (saveRow (remove_role (add_role db u role ab1 m1 t1).1 u rid t2).userroles
        (reactivate { freshRow db.nextRowId u rid ab1 m1 t1 with
            is_active := false, revoked_at := some t2 } ab3 m3 t3)).filter
        (pairMatch u rid) = _
    exact filter_saveRow_singleton _ _ _ _ hrows2d hnd2 hp3 rfl
  refine ⟨freshRow db.nextRowId u rid ab1 m1 t1,
    reactivate (freshRow db.nextRowId u rid ab1 m1 t1) ab2 m2 t2,
    reactivate { freshRow db.nextRowId u rid ab1 m1 t1 with
        is_active := false, revoked_at := some t2 } ab3 m3 t3,
    ?_, hrows1, rfl, ?_, hrows2, rfl, rfl, ?_, hrows3, rfl, rfl⟩
  · rw [h1]
  · rw [h2]
  · rw [h3]

/-- Concrete instantiation of the uniqueness theorem: assign, assign,
and assign-revoke-assign for user 7 and role 1 on an empty ledger. -/
theorem assign_pair_uniqueness_witness :
    ∃ ur1 ur2 ur3,
      (add_role exDB2 7 exRole1 none none 1).2 = Except.ok ur1 ∧
      rowsFor (add_role exDB2 7 exRole1 none none 1).1 7 1 = [ur1] ∧
      ur1.is_active = true ∧
      (add_role (add_role exDB2 7 exRole1 none none 1).1 7 exRole1 none none 2).2
          = Except.ok ur2 ∧
      rowsFor (add_role (add_role exDB2 7 exRole1 none none 1).1 7 exRole1
          none none 2).1 7 1 = [ur2] ∧
      ur2.is_active = true ∧ ur2.id = ur1.id ∧
      (add_role (remove_role (add_role exDB2 7 exRole1 none none 1).1 7 1 2)
          7 exRole1 none none 3).2 = Except.ok ur3 ∧
      rowsFor (add_role (remove_role (add_role exDB2 7 exRole1 none none 1).1 7 1 2)
          7 exRole1 none none 3).1 7 1 = [ur3] ∧
      ur3.is_active = true ∧ ur3.id = ur1.id :=
  assign_pair_uniqueness exDB2 7 1 exRole1 none none none none none none 1 2 3
    (by rfl) (by decide) (by rfl) (by simp [exDB2]) (by simp [exDB2]) (by rfl)

/-- Concrete instantiation of the no-op half of the remove_role theorem. -/
theorem remove_role_spec_witness : remove_role exDB8 7 1 10 = exDB8 :=
  (remove_role_spec exDB8 7 1 10).2 (by decide)

/-- C7: Profile.add_role with an unsaved or inactive Role raises before any
ORM access: the state comes back unchanged and the result is an error. -/
theorem add_role_invalid_role_errors (db : DB) (u : Nat) (role : Role)
    (ab : Option Nat) (note : Option String) (now : Nat)
    (h : pkFalsy role.pk = true ∨ role.is_active = false) :
    (add_role db u role ab note now).1 = db ∧
      ∃ msg, (add_role db u role ab note now).2 = Except.error msg := by
  rcases h with h | h
  · rw [add_role, if_pos h]
    exact ⟨rfl, _, rfl⟩
  · rw [add_role]
    by_cases hpk : pkFalsy role.pk = true
    · rw [if_pos hpk]
      exact ⟨rfl, _, rfl⟩
    · rw [if_neg hpk, if_pos (by simp [h])]
      exact ⟨rfl, _, rfl⟩

/-- Concrete instantiation of the C7 theorem: assigning the inactive role
"Member" leaves the empty ledger unchanged and reports an error. -/
theorem add_role_invalid_role_errors_witness :
    (add_role ⟨[], [], 0⟩ 7 ⟨some 1, "Member", "member", false⟩ none none 5).1
        = ⟨[], [], 0⟩ ∧
      ∃ msg, (add_role ⟨[], [], 0⟩ 7 ⟨some 1, "Member", "member", false⟩
        none none 5).2 = Except.error msg :=
  add_role_invalid_role_errors ⟨[], [], 0⟩ 7 ⟨some 1, "Member", "member", false⟩
    none none 5 (Or.inr rfl)

/-- C3: has_role is true exactly when some ledger row of the user is
active and references, by primary key, an active Role carrying the slug;
and it is false whenever every role carrying the slug is inactive, even
if a ledger row for it is itself active. -/
theorem has_role_iff (db : DB) (u : Nat) (slug : String) :
    (has_role db u slug = true ↔
      ∃ r ∈ db.userroles, r.user_id = u ∧ r.is_active = true ∧
        ∃ role ∈ db.roles, role.pk = some r.role_id ∧ role.slug = slug ∧
          role.is_active = true)
    ∧ ((∀ role ∈ db.roles, role.slug = slug → role.is_active = false) →
        has_role db u slug = false) := by
  have hiff : has_role db u slug = true ↔
      ∃ r ∈ db.userroles, r.user_id = u ∧ r.is_active = true ∧
        ∃ role ∈ db.roles, role.pk = some r.role_id ∧ role.slug = slug ∧
          role.is_active = true := by
    rw [has_role]
    simp only [List.any_eq_true, Bool.and_eq_true, beq_iff_eq]
    constructor
    · rintro ⟨r, hr, ⟨⟨hu, ha⟩, role, hrole, ⟨hpk, hslug⟩, hact⟩⟩
      exact ⟨r, hr, hu, ha, role, hrole, hpk, hslug, hact⟩
    · rintro ⟨r, hr, hu, ha, role, hrole, hpk, hslug, hact⟩
      exact ⟨r, hr, ⟨⟨hu, ha⟩, role, hrole, ⟨hpk, hslug⟩, hact⟩⟩
  refine ⟨hiff, ?_⟩
  intro h
  cases hh : has_role db u slug with
  | false => rfl
  | true =>
    rcases hiff.mp hh with ⟨r, _, _, _, role, hrole, _, hslug, hact⟩
    rw [h role hrole hslug] at hact
    exact absurd hact (by decide)

/-- Concrete instantiation of the has_role theorem: the ledger row of
user 7 for role "member" is active, but the role is deactivated, so
has_role answers false. -/
theorem has_role_iff_witness : has_role exDB3 7 "member" = false :=
  (has_role_iff exDB3 7 "member").2 (by decide)

/-- Reduction of RegisterView.create when serializer validation fails:
raise_exception=True turns the error into a 400 before anything is
written. -/
theorem registerView_of_invalid (sys : Sys) (inp : RegInput) (now : Nat)
    (f : String) (h : registerValidate sys inp = some f) :
    registerView sys inp now = (sys, RegOutcome.validationError f) := by
  unfold registerView
  rw [h]

/-- C4: a registration whose passwords differ fails with a field-scoped
validation error and leaves the state untouched, and a registration whose
email is already taken fails with a field-scoped validation error and
leaves the state untouched (no User, no Profile). -/
theorem register_failure_leaves_state (sys : Sys) (inp : RegInput) (now : Nat) :
    (inp.password ≠ inp.password2 →
      ∃ f, registerView sys inp now = (sys, RegOutcome.validationError f)) ∧
    ((∃ us ∈ sys.users, us.email = inp.email) →
      ∃ f, registerView sys inp now = (sys, RegOutcome.validationError f)) := by
  constructor
  · intro hne
    by_cases hu : sys.users.any (fun us => us.username == inp.username) = true
    · refine ⟨"username", registerView_of_invalid sys inp now _ ?_⟩
      rw [registerValidate, if_pos hu]
    · refine ⟨"password", registerView_of_invalid sys inp now _ ?_⟩
      rw [registerValidate, if_neg hu, if_pos hne]
  · rintro ⟨us, hus, hemail⟩
    by_cases hu : sys.users.any (fun v => v.username == inp.username) = true
    · refine ⟨"username", registerView_of_invalid sys inp now _ ?_⟩
      rw [registerValidate, if_pos hu]
    · by_cases hp : inp.password ≠ inp.password2
      · refine ⟨"password", registerView_of_invalid sys inp now _ ?_⟩
        rw [registerValidate, if_neg hu, if_pos hp]
      · have hmail : sys.users.any (fun v => v.email == inp.email) = true :=
          List.any_eq_true.mpr ⟨us, hus, by simp [hemail]⟩
        refine ⟨"email", registerView_of_invalid sys inp now _ ?_⟩
        rw [registerValidate, if_neg hu, if_neg hp, if_pos hmail]

/-- Concrete instantiation of the registration-failure theorem: mismatched
passwords yield a validation error with the state of exSysB unchanged. -/
theorem register_failure_leaves_state_witness :
    ∃ f, registerView exSysB ⟨"alice", "a@x.com", "p1", "p2"⟩ 0
      = (exSysB, RegOutcome.validationError f) :=
  (register_failure_leaves_state exSysB ⟨"alice", "a@x.com", "p1", "p2"⟩ 0).1
    (by decide)

/-- C9: when validation passes and no Role with id 2 exists, registration
still succeeds: the user and profile are created, Role.DoesNotExist is
swallowed, and a 201 with the user info comes back. -/
theorem register_missing_default_role (sys : Sys) (inp : RegInput) (now : Nat)
    (hv : registerValidate sys inp = none)
    (hr : sys.db.roles.find? (fun r => r.pk == some 2) = none) :
    ∃ rs, registerView sys inp now =
      ({ sys with
          users := sys.users ++
            [⟨sys.nextUserId, inp.username, inp.email, hashPassword inp.password⟩],
          profiles := sys.profiles ++ [sys.nextUserId],
          nextUserId := sys.nextUserId + 1 },
        RegOutcome.success inp.username inp.email rs) := by
  refine ⟨(get_active_roles sys.db sys.nextUserId).map (fun r => r.slug), ?_⟩
  simp only [registerView, hv, hr]

/-- Concrete instantiation of the missing-default-role theorem. -/
theorem register_missing_default_role_witness :
    ∃ rs, registerView exSysRegNoRole exReg 0 =
      ({ exSysRegNoRole with
          users := [⟨1, "alice", "alice@x.com", hashPassword "s3cret"⟩],
          profiles := [1],
          nextUserId := 2 },
        RegOutcome.success "alice" "alice@x.com" rs) :=
  register_missing_default_role exSysRegNoRole exReg 0 (by rfl) (by rfl)

/-- Reduction of add_role on a saved but inactive role. -/
theorem add_role_inactive_eq (db : DB) (u : Nat) (role : Role)
    (ab : Option Nat) (note : Option String) (now : Nat)
    (hpkf : pkFalsy role.pk = false) (hact : role.is_active = false) :
    add_role db u role ab note now =
      (db, Except.error "cannot assign an inactive Role") := by
  rw [add_role, hpkf, hact]
  rfl

/-- C10: when validation passes and a Role with id 2 exists but is
inactive, the ValueError raised by add_role is not caught: the view does
not answer success, although the user (and profile) have already been
created. -/
theorem register_inactive_default_role (sys : Sys) (inp : RegInput) (now : Nat)
    (role : Role) (hv : registerValidate sys inp = none)
    (hr : sys.db.roles.find? (fun r => r.pk == some 2) = some role)
    (hact : role.is_active = false) :
    registerView sys inp now =
      ({ sys with
          users := sys.users ++
            [⟨sys.nextUserId, inp.username, inp.email, hashPassword inp.password⟩],
          profiles := sys.profiles ++ [sys.nextUserId],
          nextUserId := sys.nextUserId + 1 },
        RegOutcome.uncaughtError "cannot assign an inactive Role") := by
  have hpk2 : role.pk = some 2 := by
    have hsome := List.find?_some hr
    simpa using hsome
  have hpkf : pkFalsy role.pk = false := by
    rw [hpk2]
    rfl
  simp only [registerView, hv, hr,
    add_role_inactive_eq _ _ _ _ _ _ hpkf hact]

/-- Concrete instantiation of the inactive-default-role theorem. -/
theorem register_inactive_default_role_witness :
    registerView exSysRegInactive exReg 0 =
      ({ exSysRegInactive with
          users := [⟨1, "alice", "alice@x.com", hashPassword "s3cret"⟩],
          profiles := [1],
          nextUserId := 2 },
        RegOutcome.uncaughtError "cannot assign an inactive Role") :=
  register_inactive_default_role exSysRegInactive exReg 0
    ⟨some 2, "User", "user", false⟩ (by rfl) (by rfl) (by rfl)

/-- C5 counterexample: user "bob" exists with stored email "bobmail",
which carries no at sign, so the login view does not resolve it; with the
correct password, logging in with the email fails while logging in with
the username succeeds — the two identifiers do not behave the same. -/
theorem login_email_vs_username_counterexample :
    exUserA ∈ exSysA.users ∧
    exUserA.username = "bob" ∧
    exUserA.email = "bobmail" ∧
    tokenObtain exSysA "bobmail" "pw" = LoginResult.authFailed ∧
    tokenObtain exSysA "bob" "pw" = LoginResult.success "bob" "bobmail" [] ∧
    tokenObtain exSysA "bobmail" "pw" ≠ tokenObtain exSysA "bob" "pw" :=
  ⟨by decide, by rfl, by rfl, by rfl, by rfl, by decide⟩

/-- C5 (amended): logging in with the email of an existing user behaves
exactly like logging in with the username, provided the email contains an
at sign, the user is the unique user carrying that email, and the
username itself resolves to itself (as it does whenever it carries no at
sign). -/
theorem login_email_equals_username (sys : Sys) (us : AppUser) (p : String)
    (hat : hasAtSign us.email = true)
    (huniq : sys.users.filter (fun v => v.email == us.email) = [us])
    (hres : resolveUsername sys.users us.username = Except.ok us.username) :
    tokenObtain sys us.email p = tokenObtain sys us.username p := by
  have h1 : resolveUsername sys.users us.email = Except.ok us.username := by
    rw [resolveUsername, if_pos hat, huniq]
  simp only [tokenObtain]
  rw [h1, hres]

/-- Concrete instantiation of the amended login theorem on exSysB. -/
theorem login_email_equals_username_witness :
    tokenObtain exSysB exUserB.email "pw"
      = tokenObtain exSysB exUserB.username "pw" :=
  login_email_equals_username exSysB exUserB "pw" (by decide) (by rfl) (by rfl)

/-- C6: a refresh token accepted once by the refresh endpoint is refused
on a second redemption: rotation blacklists the redeemed token, so the
second call answers an invalid-token error. -/
theorem refresh_token_single_use (st st2 : JwtState) (jti newJti : Nat)
    (h : refreshEndpoint st jti = Except.ok (st2, newJti)) :
    ∃ msg, refreshEndpoint st2 jti = Except.error msg := by
  rw [refreshEndpoint] at h
  cases hx : st.outstanding.any (fun t => t == jti) with
  | false =>
    rw [hx] at h
    simp at h
  | true =>
    rw [hx] at h
    cases hy : st.blacklist.any (fun t => t == jti) with
    | true =>
      rw [hy] at h
      simp at h
    | false =>
      rw [hy] at h
      simp only [Bool.not_true, Bool.false_eq_true, if_false,
        ROTATE_REFRESH_TOKENS, BLACKLIST_AFTER_ROTATION, if_true] at h
      injection h with hp
      injection hp with hst hjti
      subst hst
      refine ⟨"Token is blacklisted", ?_⟩
      rw [refreshEndpoint]
      simp [List.any_append, hx, hy, BLACKLIST_AFTER_ROTATION]

/-- Concrete instantiation of the single-use theorem: redeeming jti 5
once from exJwt succeeds; redeeming it again from the resulting state is
refused. -/
theorem refresh_token_single_use_witness :
    ∃ msg, refreshEndpoint ⟨[5, 6], [5], 7⟩ 5 = Except.error msg :=
  refresh_token_single_use exJwt ⟨[5, 6], [5], 7⟩ 5 6 (by rfl)

end Accounts
